import Mathlib

/-!
Verification of the origen MCP design-system core: the intent-matching /
template-composition engine (`compose-interface.ts`), the static accessibility
rule engine (`validate-accessibility.ts`) and the layout-pattern catalog
(`get-layout-pattern.ts`), shallowly embedded in Lean.

Strings are Lean `String`s (lists of characters); JavaScript string
operations (`toLowerCase`, `includes`, `trim`) are modelled character-wise,
which agrees with the source on the ASCII data appearing in the tables.
-/

/-! ## JavaScript string primitives -/

/-- `s.toLowerCase()` (ASCII; all table keywords are ASCII). -/
def lowerStr (s : String) : String := ⟨s.data.map Char.toLower⟩

/-- Substring test at the head or anywhere later: the recursion behind
`hay.includes(needle)`. -/
def containsSub (needle : List Char) : List Char → Bool
  | [] => needle.isEmpty
  | c :: t => needle.isPrefixOf (c :: t) || containsSub needle t

/-- JavaScript `hay.includes(needle)`. -/
def strIncludes (hay needle : String) : Bool := containsSub needle.data hay.data

/-- Number of positions of `hay` at which `needle` occurs (used to count how
often a rendered fragment appears in generated code). -/
def countSub (needle : List Char) : List Char → Nat
  | [] => 0
  | c :: t => (if needle.isPrefixOf (c :: t) then 1 else 0) + countSub needle t

/-- Occurrence count of `needle` in `hay`. -/
def countOccur (hay needle : String) : Nat := countSub needle.data hay.data

/-- JavaScript `s.trim()` (whitespace per `Char.isWhitespace`). -/
def jsTrim (s : String) : String :=
  ⟨((s.data.dropWhile Char.isWhitespace).reverse.dropWhile Char.isWhitespace).reverse⟩

/-- JavaScript `s.charAt(0).toUpperCase() + s.slice(1)`. -/
def jsCapitalize (s : String) : String :=
  match s.data with
  | [] => ""
  | c :: t => ⟨c.toUpper :: t⟩

/-! ## Property bags

Prop values flowing through the engines are strings, booleans or numbers
(`props: Record<string, unknown>`; the static tables only contain strings,
and the JSX prop parser produces strings, booleans and numerals).  A numeric
value carries its JavaScript source text, which is also what
`JSON.stringify` prints for it.  A props object is an insertion-ordered
association list with JavaScript assignment semantics (overwriting keeps the
original key position). -/

inductive PropValue where
  | str (s : String)
  | bool (b : Bool)
  | num (lit : String)
deriving DecidableEq, Repr

/-- JavaScript truthiness of a prop value (`!!v`).  For numbers, only the
literal `0` in the dead parser path would be falsy; no table contains one. -/
def truthyVal : PropValue → Bool
  | .str s => !s.isEmpty
  | .bool b => b
  | .num lit => lit != "0"

/-- Truthiness of `props[k]` where a missing key reads as `undefined`. -/
def truthyOpt : Option PropValue → Bool
  | none => false
  | some v => truthyVal v

/-- First binding of key `k` (JavaScript object property read). -/
def propLookup (props : List (String × PropValue)) (k : String) : Option PropValue :=
  (props.find? (fun kv => kv.1 == k)).map (fun kv => kv.2)

/-- JavaScript `props[k] = v`: overwrite in place, else append. -/
def setProp : List (String × PropValue) → String → PropValue → List (String × PropValue)
  | [], k, v => [(k, v)]
  | (k', v') :: t, k, v => if k' = k then (k', v) :: t else (k', v') :: setProp t k v

/-! ## compose-interface.ts: data model -/

inductive LayoutType where
  | flex | grid | stack
deriving DecidableEq, Repr

inductive Direction where
  | row | column
deriving DecidableEq, Repr

structure LayoutConfig where
  type : LayoutType
  direction : Option Direction := none
  gap : Option String := none
deriving DecidableEq, Repr

inductive Slot where
  | header | content | footer | trigger | wrapper
deriving DecidableEq, Repr

structure ComponentDefinition where
  name : String
  props : List (String × PropValue) := []
  slot : Option Slot := none
  children : Option String := none
deriving DecidableEq, Repr

structure IntentPattern where
  keywords : List String
  components : List ComponentDefinition
  layout : LayoutConfig
deriving DecidableEq, Repr

inductive ContextKind where
  | page | section | component
deriving DecidableEq, Repr

structure ComposeInterfaceInput where
  intent : String
  context : ContextKind
deriving DecidableEq, Repr

structure ComposeInterfaceOutput where
  layout : LayoutConfig
  components : List ComponentDefinition
  code : String
  tokens : List String
  suggestions : Option (List String) := none
deriving DecidableEq, Repr

/-! ## compose-interface.ts: intent patterns (static table) -/

def intentPatterns : List IntentPattern := [
  { keywords := ["login", "signin", "sign in", "log in"],
    components := [
      { name := "Card", slot := some .wrapper },
      { name := "CardHeader", slot := some .header },
      { name := "CardTitle", slot := some .header, children := some "Sign In" },
      { name := "CardContent", slot := some .content },
      { name := "Input", props := [("type", .str "email"), ("placeholder", .str "Email")], slot := some .content },
      { name := "Input", props := [("type", .str "password"), ("placeholder", .str "Password")], slot := some .content },
      { name := "CardFooter", slot := some .footer },
      { name := "Button", props := [("variant", .str "default")], slot := some .footer, children := some "Sign In" }],
    layout := { type := .stack, direction := some .column, gap := some "4" } },
  { keywords := ["profile", "user card", "user profile", "account"],
    components := [
      { name := "Card", slot := some .wrapper },
      { name := "CardHeader", slot := some .header },
      { name := "CardTitle", slot := some .header, children := some "User Profile" },
      { name := "CardDescription", slot := some .header, children := some "Manage your account" },
      { name := "CardContent", slot := some .content },
      { name := "Button", props := [("variant", .str "secondary")], slot := some .content, children := some "Edit Profile" }],
    layout := { type := .stack, direction := some .column, gap := some "4" } },
  { keywords := ["form", "input form", "data entry"],
    components := [
      { name := "Card", slot := some .wrapper },
      { name := "CardHeader", slot := some .header },
      { name := "CardTitle", slot := some .header, children := some "Form" },
      { name := "CardContent", slot := some .content },
      { name := "CardFooter", slot := some .footer },
      { name := "Button", props := [("variant", .str "default")], slot := some .footer, children := some "Submit" }],
    layout := { type := .stack, direction := some .column, gap := some "4" } },
  { keywords := ["navigation", "header", "navbar", "nav"],
    components := [
      { name := "Button", props := [("variant", .str "ghost")], children := some "Home" },
      { name := "Button", props := [("variant", .str "ghost")], children := some "About" },
      { name := "Button", props := [("variant", .str "ghost")], children := some "Contact" }],
    layout := { type := .flex, direction := some .row, gap := some "2" } },
  { keywords := ["settings", "preferences", "options"],
    components := [
      { name := "Card", slot := some .wrapper },
      { name := "CardHeader", slot := some .header },
      { name := "CardTitle", slot := some .header, children := some "Settings" },
      { name := "CardContent", slot := some .content },
      { name := "Select", props := [("placeholder", .str "Choose option")], slot := some .content },
      { name := "CardFooter", slot := some .footer },
      { name := "Button", props := [("variant", .str "default")], slot := some .footer, children := some "Save" }],
    layout := { type := .stack, direction := some .column, gap := some "4" } },
  { keywords := ["modal", "dialog", "popup", "confirm"],
    components := [
      { name := "Modal", slot := some .wrapper },
      { name := "Button", slot := some .trigger, children := some "Open" }],
    layout := { type := .stack, direction := some .column, gap := some "4" } }]

/-! ## compose-interface.ts: matchIntent

`matchIntent` maps every pattern to a keyword-hit count and sorts the scored
list with `sort((a, b) => b.score - a.score)`.  `Array.prototype.sort` is
stable (ES2019), so the sorted list is the unique stable descending
rearrangement; `insertDesc`/`sortDesc` compute exactly that order. -/

/-- Number of keywords of `p` occurring in the normalized intent. -/
def keywordScore (normalized : String) (p : IntentPattern) : Nat :=
  (p.keywords.filter (fun kw => strIncludes normalized kw)).length

/-- Stable descending insertion: skip strictly higher scores, land before the
first element whose score is not higher (earlier-declared patterns with an
equal score stay in front, as a stable sort keeps them). -/
def insertDesc (x : IntentPattern × Nat) : List (IntentPattern × Nat) → List (IntentPattern × Nat)
  | [] => [x]
  | y :: ys => if y.2 > x.2 then y :: insertDesc x ys else x :: y :: ys

/-- Stable sort by score descending. -/
def sortDesc (l : List (IntentPattern × Nat)) : List (IntentPattern × Nat) :=
  l.foldr insertDesc []

/-- `matchIntent(intent)`: score each pattern, sort descending, take the first
element, return its pattern when its score is positive. -/
def matchIntent (intent : String) : Option IntentPattern :=
  let normalized := lowerStr intent
  let scored := intentPatterns.map (fun p => (p, keywordScore normalized p))
  match sortDesc scored with
  | [] => none
  | best :: _ => if best.2 > 0 then some best.1 else none

/-- The specification's description of `matchIntent`: the highest keyword
count wins, ties go to the pattern declared earliest, and a highest count of
0 yields no match. -/
def matchIntentSpec (intent : String) : Option IntentPattern :=
  let normalized := lowerStr intent
  let best := (intentPatterns.map (keywordScore normalized)).foldr max 0
  if best = 0 then none
  else intentPatterns.find? (fun p => keywordScore normalized p == best)

/-! ## compose-interface.ts: dynamic fields, slot assembly, code generation -/

/-- `extractFormFields(intent)`: six independent case-insensitive substring
checks in fixed declaration order (`/email/i`, `/password/i`, `/name/i`,
`/phone/i`, `/message|comment/i`, `/date/i`). -/
def extractFormFields (intent : String) : List String :=
  let n := lowerStr intent
  (if strIncludes n "email" then ["email"] else []) ++
  (if strIncludes n "password" then ["password"] else []) ++
  (if strIncludes n "name" then ["text"] else []) ++
  (if strIncludes n "phone" then ["tel"] else []) ++
  (if strIncludes n "message" || strIncludes n "comment" then ["textarea"] else []) ++
  (if strIncludes n "date" then ["date"] else [])

structure SlottedComponents where
  wrapper : List ComponentDefinition := []
  header : List ComponentDefinition := []
  content : List ComponentDefinition := []
  footer : List ComponentDefinition := []
  trigger : List ComponentDefinition := []
  unslotted : List ComponentDefinition := []
deriving DecidableEq, Repr

/-- `groupBySlot`: push each component into its slot's bucket; components
without a slot land in `unslotted`. -/
def groupBySlot (components : List ComponentDefinition) : SlottedComponents :=
  components.foldl (fun s c =>
    match c.slot with
    | some .wrapper => { s with wrapper := s.wrapper ++ [c] }
    | some .header => { s with header := s.header ++ [c] }
    | some .content => { s with content := s.content ++ [c] }
    | some .footer => { s with footer := s.footer ++ [c] }
    | some .trigger => { s with trigger := s.trigger ++ [c] }
    | none => { s with unslotted := s.unslotted ++ [c] })
    {}

/-- Serialization of one prop: strings are quoted, `true` is a bare
attribute, `false` an explicit expression, numbers a JSON expression. -/
def renderProp (kv : String × PropValue) : String :=
  match kv.2 with
  | .str s => kv.1 ++ "=\"" ++ s ++ "\""
  | .bool true => kv.1
  | .bool false => kv.1 ++ "=\x7bfalse\x7d"
  | .num lit => kv.1 ++ "=\x7b" ++ lit ++ "\x7d"

/-- `renderComponent`: self-closing without children, paired with them
(an empty children string is falsy in the source, hence self-closing). -/
def renderComponent (comp : ComponentDefinition) : String :=
  let propsStr := String.intercalate " " (comp.props.map renderProp)
  let open_ := "<" ++ comp.name ++ (if propsStr = "" then "" else " " ++ propsStr)
  match comp.children with
  | some s =>
      if s = "" then open_ ++ " />"
      else open_ ++ ">" ++ s ++ "</" ++ comp.name ++ ">"
  | none => open_ ++ " />"

/-- `generateCardStructure`: Card skeleton with header / content / footer
sections; the structural placeholder entries themselves are skipped. -/
def generateCardStructure (slotted : SlottedComponents) (indent : String) : String :=
  let code := "<Card>\n"
  let code := if slotted.header.length > 0 then
      (slotted.header.foldl
        (fun acc c => if c.name = "CardHeader" then acc
          else acc ++ indent ++ indent ++ renderComponent c ++ "\n")
        (code ++ indent ++ "<CardHeader>\n")) ++ indent ++ "</CardHeader>\n"
    else code
  let code := if slotted.content.length > 0 then
      (slotted.content.foldl
        (fun acc c => if c.name = "CardContent" then acc
          else acc ++ indent ++ indent ++ renderComponent c ++ "\n")
        (code ++ indent ++ "<CardContent className=\"flex flex-col gap-4\">\n")) ++ indent ++ "</CardContent>\n"
    else code
  let code := if slotted.footer.length > 0 then
      (slotted.footer.foldl
        (fun acc c => if c.name = "CardFooter" then acc
          else acc ++ indent ++ indent ++ renderComponent c ++ "\n")
        (code ++ indent ++ "<CardFooter>\n")) ++ indent ++ "</CardFooter>\n"
    else code
  code ++ "</Card>"

/-- `generateFlatLayout`: one container div; its class is assembled from the
layout only for `flex` (`grid`/`stack` give the empty class), an absent or
empty gap contributes nothing, and the class string is trimmed. -/
def generateFlatLayout (components : List ComponentDefinition) (layout : LayoutConfig)
    (indent : String) : String :=
  let dirClass := if layout.direction = some .row then "flex-row" else "flex-col"
  let gapClass := match layout.gap with
    | some g => if g = "" then "" else "gap-" ++ g
    | none => ""
  let layoutClass := if layout.type = .flex then "flex " ++ dirClass ++ " " ++ gapClass else ""
  let body := components.foldl (fun code c => code ++ indent ++ renderComponent c ++ "\n")
    ("<div className=\"" ++ jsTrim layoutClass ++ "\">\n")
  body ++ "</div>"

/-- Reindentation used in the page context:
`code.split("\n").join("\n" + indent)`. -/
def reindent (code : String) (indent : String) : String :=
  String.intercalate ("\n" ++ indent) (code.splitOn "\n")

/-- `generateCode`: page wrapper, then Card skeleton when a wrapper-bucket
entry is named "Card", else Modal skeleton when one is named "Modal", else
the flat layout over the concatenation of the unslotted bucket and the
components without a slot (which are the same list). -/
def generateCode (layout : LayoutConfig) (components : List ComponentDefinition)
    (context : ContextKind) : String :=
  let indent := "  "
  let slotted := groupBySlot components
  let base := if context = ContextKind.page
    then "<div className=\"min-h-screen bg-background p-8\">\n" ++ indent else ""
  let hasCard := slotted.wrapper.any (fun c => c.name == "Card")
  let hasModal := slotted.wrapper.any (fun c => c.name == "Modal")
  let mid :=
    if hasCard then
      let cardCode := generateCardStructure slotted indent
      if context = ContextKind.page then reindent cardCode indent else cardCode
    else if hasModal then
      let m := "<Modal>\n"
      let m := if slotted.trigger.length > 0 then
          (slotted.trigger.foldl
            (fun acc c => if c.name = "Modal" then acc
              else acc ++ indent ++ indent ++ renderComponent c ++ "\n")
            (m ++ indent ++ "<Modal.Trigger>\n")) ++ indent ++ "</Modal.Trigger>\n"
        else m
      m ++ indent ++ "<Modal.Content title=\"Modal\">\n" ++
        indent ++ indent ++ "\x7b/* Content here */\x7d\n" ++
        indent ++ "</Modal.Content>\n" ++ "</Modal>"
    else
      let flatCode := generateFlatLayout
        (slotted.unslotted ++ components.filter (fun c => c.slot.isNone)) layout indent
      if context = ContextKind.page then reindent flatCode indent else flatCode
  let closing := if context = ContextKind.page then "\n</div>" else ""
  base ++ mid ++ closing

/-! ## compose-interface.ts: token collection -/

/-- The fixed component-name → token table. -/
def tokenMap : String → List String
  | "Button" => ["primary", "primary-foreground", "secondary", "destructive"]
  | "Input" => ["background", "border", "input", "ring", "foreground"]
  | "Card" => ["card", "card-foreground", "border"]
  | "CardHeader" => ["card"]
  | "CardTitle" => ["card-foreground"]
  | "CardDescription" => ["muted-foreground"]
  | "CardContent" => ["card"]
  | "CardFooter" => ["card", "border"]
  | "Select" => ["background", "border", "foreground"]
  | "Modal" => ["background", "foreground", "border"]
  | _ => []

/-- The component names present in `tokenMap`. -/
def tokenTableNames : List String :=
  ["Button", "Input", "Card", "CardHeader", "CardTitle", "CardDescription",
   "CardContent", "CardFooter", "Select", "Modal"]

/-- `Array.from(set).sort()`: ascending lexicographic sort (the default
string comparator; the sorted permutation is unique as the input has no
duplicates). -/
def sortStrings (l : List String) : List String := List.insertionSort (· ≤ ·) l

/-- Insertion-ordered `Set.add`. -/
def addToken (acc : List String) (t : String) : List String :=
  if t ∈ acc then acc else acc ++ [t]

/-- `collectTokens`: union of the token sets of the component names, in a
`Set` (insertion order, no duplicates), then sorted. -/
def collectTokens (components : List ComponentDefinition) : List String :=
  let tokens := components.foldl (fun acc c => (tokenMap c.name).foldl addToken acc) []
  sortStrings tokens

/-! ## compose-interface.ts: composition orchestrator -/

/-- `buildComponentList`: for form-like patterns, insert the dynamic field
inputs right after the content-slotted "CardContent" anchor, or two
positions before the end when no anchor exists. -/
def buildComponentList (pattern : IntentPattern) (intent : String) : List ComponentDefinition :=
  let components := pattern.components
  let isFormPattern := pattern.keywords.any (fun kw => kw == "form" || kw == "data entry")
  if isFormPattern then
    let fields := extractFormFields intent
    let contentIndex := components.findIdx?
      (fun c => c.name == "CardContent" && c.slot == some Slot.content)
    let insertIndex := match contentIndex with
      | some i => i + 1
      | none => components.length - 2
    let dynamicInputs : List ComponentDefinition := fields.map (fun field =>
      { name := "Input",
        props := [("type", PropValue.str (if field = "textarea" then "text" else field)),
                  ("placeholder", PropValue.str (jsCapitalize field))],
        slot := some Slot.content })
    components.take insertIndex ++ dynamicInputs ++ components.drop insertIndex
  else components

/-- The "no pattern matched" payload of `composeInterface`. -/
def composeFallback : ComposeInterfaceOutput :=
  { layout := { type := .stack, direction := some .column },
    components := [],
    code := "// No matching pattern found for this intent",
    tokens := [],
    suggestions := some ["login form", "user profile", "contact form",
                         "navigation header", "settings page"] }

/-- `composeInterface`: reject a blank intent, fall back gracefully on an
unmatched one, otherwise assemble components, code and tokens. -/
def composeInterface (input : ComposeInterfaceInput) : Except String ComposeInterfaceOutput :=
  if jsTrim input.intent = "" then
    .error "Intent cannot be empty"
  else
    match matchIntent input.intent with
    | none => .ok composeFallback
    | some pattern =>
      let components := buildComponentList pattern input.intent
      let code := generateCode pattern.layout components input.context
      let tokens := collectTokens components
      .ok { layout := pattern.layout, components := components, code := code,
            tokens := tokens }

/-! ## validate-accessibility.ts: data model -/

inductive Severity where
  | error | warning | info
deriving DecidableEq, Repr

/-- Children of a component descriptor: a plain text string, or an array
(whose contents the engine never inspects). -/
inductive ChildrenValue where
  | str (s : String)
  | arr
deriving DecidableEq, Repr

structure ComponentInput where
  name : String
  props : List (String × PropValue) := []
  children : Option ChildrenValue := none
  slot : Option String := none
deriving DecidableEq, Repr

structure AccessibilityIssue where
  severity : Severity
  rule : String
  wcag : Option String := none
  component : Option String := none
  message : String
  suggestion : String
deriving DecidableEq, Repr

inductive VContext where
  | form | navigation | content | modal | general
deriving DecidableEq, Repr

structure ValidateAccessibilityInput where
  code : Option String := none
  components : Option (List ComponentInput) := none
  context : VContext := .general
deriving DecidableEq, Repr

structure ValidateAccessibilityOutput where
  valid : Bool
  score : Int
  issues : List AccessibilityIssue
  summary : String
  passedRules : List String
deriving DecidableEq, Repr

/-! ## validate-accessibility.ts: JSX parser

A character-level rendering of the two regex passes
(`/<(\w+(?:\.\w+)?)\s*([^>]*?)\/>/g` and
`/<(\w+(?:\.\w+)?)\s*([^>]*)>([^<]*)<\/\1>/g`) and of `parseProps`.  The
scan advances one character past a failed candidate, exactly as the regex
engine resumes at the next position; fuel bounded by the input length makes
the loop structurally terminating.  `Number(...)` coercion of expression
props is approximated by a numeral-shape test; no rule inspects those
values. -/

/-- JavaScript regex `\w`. -/
def isWordChar (c : Char) : Bool := c.isAlphanum || c = '_'

/-- `\w+(?:\.\w+)?`: a component name, with the remaining input. -/
def takeName (cs : List Char) : Option (List Char × List Char) :=
  let w1 := cs.takeWhile isWordChar
  if w1.isEmpty then none
  else
    let r1 := cs.drop w1.length
    match r1 with
    | '.' :: r2 =>
      let w2 := r2.takeWhile isWordChar
      if w2.isEmpty then some (w1, r1)
      else some (w1 ++ ['.'] ++ w2, r2.drop w2.length)
    | _ => some (w1, r1)

/-- One candidate match of the self-closing-tag regex starting at `cs`
(which begins with the character under scan). -/
def tryMatchSelfClosing (cs : List Char) : Option (String × String × List Char) :=
  match cs with
  | '<' :: rest =>
    match takeName rest with
    | none => none
    | some (name, after) =>
      let run := after.takeWhile (fun c => c ≠ '>')
      match after.drop run.length with
      | '>' :: rem2 =>
        if run.getLast? = some '/' then
          some (⟨name⟩, ⟨run.dropLast.dropWhile Char.isWhitespace⟩, rem2)
        else none
      | _ => none
  | _ => none

/-- One candidate match of the paired-tag regex starting at `cs`. -/
def tryMatchPaired (cs : List Char) : Option (String × String × String × List Char) :=
  match cs with
  | '<' :: rest =>
    match takeName rest with
    | none => none
    | some (name, after) =>
      let run := after.takeWhile (fun c => c ≠ '>')
      match after.drop run.length with
      | '>' :: rem2 =>
        let childRun := rem2.takeWhile (fun c => c ≠ '<')
        let rem3 := rem2.drop childRun.length
        let closing := ['<', '/'] ++ name ++ ['>']
        if closing.isPrefixOf rem3 then
          some (⟨name⟩, ⟨run.dropWhile Char.isWhitespace⟩, ⟨childRun⟩,
                rem3.drop closing.length)
        else none
      | _ => none
  | _ => none

/-- Global scan of the self-closing-tag regex. -/
def scanSelfClosing : Nat → List Char → List (String × String)
  | 0, _ => []
  | _, [] => []
  | fuel + 1, c :: rest =>
    if c = '<' then
      match tryMatchSelfClosing (c :: rest) with
      | some (n, p, rem) => (n, p) :: scanSelfClosing fuel rem
      | none => scanSelfClosing fuel rest
    else scanSelfClosing fuel rest

/-- Global scan of the paired-tag regex. -/
def scanPaired : Nat → List Char → List (String × String × String)
  | 0, _ => []
  | _, [] => []
  | fuel + 1, c :: rest =>
    if c = '<' then
      match tryMatchPaired (c :: rest) with
      | some (n, p, ch, rem) => (n, p, ch) :: scanPaired fuel rem
      | none => scanPaired fuel rest
    else scanPaired fuel rest

/-- Numeral shape accepted by `!isNaN(Number(value))` (approximation; the
value is only stored, never evaluated by a rule). -/
def jsIsNumeric (s : String) : Bool :=
  !s.isEmpty && s.data.all (fun c => c.isDigit || c = '.' || c = '-' || c = '+' || c = 'e' || c = 'E')

/-- Value classification of a `key={value}` expression prop. -/
def classifyExprProp (value : String) : PropValue :=
  if value = "true" then .bool true
  else if value = "false" then .bool false
  else if jsIsNumeric value then .num value
  else .str value

/-- Scan for `key="value"` string props. -/
def scanStringProps : Nat → List Char → List (String × String)
  | 0, _ => []
  | _, [] => []
  | fuel + 1, c :: rest =>
    let key := (c :: rest).takeWhile (fun ch => isWordChar ch || ch = '-')
    if isWordChar c && !key.isEmpty then
      match (c :: rest).drop key.length with
      | '=' :: '"' :: r2 =>
        let value := r2.takeWhile (fun ch => ch ≠ '"')
        match r2.drop value.length with
        | '"' :: r3 => (⟨key⟩, ⟨value⟩) :: scanStringProps fuel r3
        | _ => scanStringProps fuel rest
      | _ => scanStringProps fuel rest
    else scanStringProps fuel rest

/-- Scan for `key={value}` expression props. -/
def scanExprProps : Nat → List Char → List (String × String)
  | 0, _ => []
  | _, [] => []
  | fuel + 1, c :: rest =>
    let key := (c :: rest).takeWhile (fun ch => isWordChar ch || ch = '-')
    if isWordChar c && !key.isEmpty then
      match (c :: rest).drop key.length with
      | '=' :: '\x7b' :: r2 =>
        let value := r2.takeWhile (fun ch => ch ≠ '\x7d')
        match r2.drop value.length with
        | '\x7d' :: r3 => (⟨key⟩, ⟨value⟩) :: scanExprProps fuel r3
        | _ => scanExprProps fuel rest
      | _ => scanExprProps fuel rest
    else scanExprProps fuel rest

/-- `parseProps`: string props first, then expression props, assigned into
one object. -/
def parseProps (s : String) : List (String × PropValue) :=
  let pass1 := scanStringProps s.data.length s.data
  let pass2 := scanExprProps s.data.length s.data
  let props := pass1.foldl (fun acc kv => setProp acc kv.1 (PropValue.str kv.2)) []
  pass2.foldl (fun acc kv => setProp acc kv.1 (classifyExprProp kv.2)) props

/-- `parseJSXToComponents`: the self-closing pass followed by the paired-tag
pass, in discovery order, without cross-pass deduplication; paired-tag
children are trimmed and dropped when empty. -/
def parseJSXToComponents (code : String) : List ComponentInput :=
  let cs := code.data
  ((scanSelfClosing cs.length cs).map (fun np =>
    ({ name := np.1, props := parseProps np.2 } : ComponentInput))) ++
  ((scanPaired cs.length cs).map (fun t =>
    let ch := jsTrim t.2.2
    ({ name := t.1, props := parseProps t.2.1,
       children := if ch.isEmpty then none else some (ChildrenValue.str ch) } : ComponentInput)))

/-! ## validate-accessibility.ts: per-component validators -/

/-- Rules for `Input`. -/
def validateInput (component : ComponentInput) : List AccessibilityIssue :=
  let props := component.props
  let hasAriaLabel := truthyOpt (propLookup props "aria-label")
  let hasAriaLabelledBy := truthyOpt (propLookup props "aria-labelledby")
  let hasId := truthyOpt (propLookup props "id")
  let hasPlaceholder := truthyOpt (propLookup props "placeholder")
  (if !hasAriaLabel && !hasAriaLabelledBy && !hasId then
    [{ severity := .error, rule := "input-needs-label", wcag := some "1.3.1, 4.1.2",
       component := some "Input",
       message := "Input is missing an accessible label",
       suggestion := "Add aria-label, aria-labelledby, or associate with a Label using id" }]
  else []) ++
  (if hasPlaceholder && !hasAriaLabel && !hasAriaLabelledBy && hasId then
    [{ severity := .warning, rule := "placeholder-not-label", wcag := some "3.3.2",
       component := some "Input",
       message := "Placeholder used as only visible indicator",
       suggestion := "Add a visible label; placeholder disappears when user types" }]
  else [])

/-- Rules for `Button`. -/
def validateButton (component : ComponentInput) : List AccessibilityIssue :=
  let hasAriaLabel := truthyOpt (propLookup component.props "aria-label")
  let hasTextContent := match component.children with
    | some (.str s) => !(jsTrim s).isEmpty
    | _ => false
  if !hasAriaLabel && !hasTextContent then
    [{ severity := .error, rule := "button-needs-name", wcag := some "4.1.2",
       component := some "Button",
       message := "Button has no accessible name",
       suggestion := "Add text content or aria-label to the Button" }]
  else []

/-- Rules for `Modal.Content`. -/
def validateModal (component : ComponentInput) : List AccessibilityIssue :=
  let props := component.props
  let hasTitle := truthyOpt (propLookup props "title")
  let hasAriaLabel := truthyOpt (propLookup props "aria-label")
  let hasAriaLabelledBy := truthyOpt (propLookup props "aria-labelledby")
  let hasDescription := truthyOpt (propLookup props "description")
  let hasAriaDescribedBy := truthyOpt (propLookup props "aria-describedby")
  (if !hasTitle && !hasAriaLabel && !hasAriaLabelledBy then
    [{ severity := .error, rule := "modal-needs-label", wcag := some "4.1.2",
       component := some "Modal.Content",
       message := "Modal dialog is missing an accessible label",
       suggestion := "Add title prop or aria-label/aria-labelledby to Modal.Content" }]
  else []) ++
  (if (hasTitle || hasAriaLabel || hasAriaLabelledBy) && !hasDescription && !hasAriaDescribedBy then
    [{ severity := .warning, rule := "modal-needs-description", wcag := some "4.1.2",
       component := some "Modal.Content",
       message := "Modal dialog has no description for context",
       suggestion := "Add description prop or aria-describedby for additional context" }]
  else [])

/-- Rules for `Select`. -/
def validateSelect (component : ComponentInput) : List AccessibilityIssue :=
  let props := component.props
  let hasAriaLabel := truthyOpt (propLookup props "aria-label")
  let hasAriaLabelledBy := truthyOpt (propLookup props "aria-labelledby")
  let hasId := truthyOpt (propLookup props "id")
  if !hasAriaLabel && !hasAriaLabelledBy && !hasId then
    [{ severity := .error, rule := "select-needs-label", wcag := some "1.3.1, 4.1.2",
       component := some "Select",
       message := "Select is missing an accessible label",
       suggestion := "Add aria-label or associate with a Label element" }]
  else []

/-- Rules for `img`: a missing `alt` prop is an error; a non-empty string
`alt` whose lower-cased text contains "image of", "picture of" or
"photo of" is a redundancy warning. -/
def validateImage (component : ComponentInput) : List AccessibilityIssue :=
  let alt := propLookup component.props "alt"
  (if alt = none then
    [{ severity := .error, rule := "img-needs-alt", wcag := some "1.1.1",
       component := some "img",
       message := "Image is missing alt text",
       suggestion := "Add alt attribute with descriptive text, or alt=\x27\x27 for decorative images" }]
  else []) ++
  (match alt with
   | some (.str s) =>
     if s.length > 0 then
       let lowerAlt := lowerStr s
       if strIncludes lowerAlt "image of" || strIncludes lowerAlt "picture of" ||
          strIncludes lowerAlt "photo of" then
         [{ severity := .warning, rule := "redundant-alt", wcag := some "1.1.1",
            component := some "img",
            message := "Alt text contains redundant words",
            suggestion := "Remove \x27image of\x27 prefix; screen readers announce images" }]
       else []
     else []
   | _ => [])

/-- Dispatch by component name; unknown names yield no issues. -/
def validateComponent (component : ComponentInput) : List AccessibilityIssue :=
  match component.name with
  | "Input" => validateInput component
  | "Button" => validateButton component
  | "Modal.Content" => validateModal component
  | "Select" => validateSelect component
  | "img" => validateImage component
  | _ => []

/-! ## validate-accessibility.ts: scoring, summary, passed rules -/

/-- Severity weights. -/
def severityWeight : Severity → Int
  | .error => 25
  | .warning => 10
  | .info => 2

/-- `calculateScore`: start at 100, subtract each issue's weight, floor at 0. -/
def calculateScore (issues : List AccessibilityIssue) : Int :=
  max 0 (issues.foldl (fun score i => score - severityWeight i.severity) 100)

/-- Number of issues of a given severity. -/
def countSeverity (sev : Severity) (issues : List AccessibilityIssue) : Nat :=
  (issues.filter (fun i => i.severity == sev)).length

/-- `generateSummary`. -/
def generateSummary (issues : List AccessibilityIssue) (score : Int) : String :=
  let errorCount := countSeverity .error issues
  let warningCount := countSeverity .warning issues
  if issues.length = 0 then "All accessibility checks passed. Score: 100/100"
  else
    let parts :=
      (if errorCount > 0 then
        [toString errorCount ++ " error" ++ (if errorCount > 1 then "s" else "")] else []) ++
      (if warningCount > 0 then
        [toString warningCount ++ " warning" ++ (if warningCount > 1 then "s" else "")] else [])
    "Found " ++ String.intercalate " and " parts ++ ". Score: " ++ toString score ++ "/100"

/-- Primary (error-level) rule tracked per recognized component type. -/
def primaryRule : String → Option String
  | "Button" => some "button-needs-name"
  | "Input" => some "input-needs-label"
  | "Modal.Content" => some "modal-needs-label"
  | "Select" => some "select-needs-label"
  | "img" => some "img-needs-alt"
  | _ => none

/-- `getPassedRules`: in input order, record each recognized type's primary
rule once, provided no issue of that rule fired anywhere. -/
def getPassedRules (components : List ComponentInput)
    (issues : List AccessibilityIssue) : List String :=
  let failedRules := issues.map (fun i => i.rule)
  components.foldl (fun acc c =>
    match primaryRule c.name with
    | some r => if r ∈ failedRules then acc else if r ∈ acc then acc else acc ++ [r]
    | none => acc) []

/-! ## validate-accessibility.ts: main function -/

/-- JavaScript falsiness of the optional `code` argument (`!code`): absent
or the empty string. -/
def jsFalsyOptStr : Option String → Bool
  | none => true
  | some s => s.isEmpty

/-- `validateAccessibility`: reject when `code` is falsy and `components`
absent; prefer `components` over parsing `code`; evaluate every rule on
every component; score, summarize and report. -/
def validateAccessibility (input : ValidateAccessibilityInput) :
    Except String ValidateAccessibilityOutput :=
  if jsFalsyOptStr input.code && input.components.isNone then
    .error "Either code or components must be provided"
  else
    let components := match input.components with
      | some cs => cs
      | none => parseJSXToComponents (input.code.getD "")
    let issues := components.foldl (fun acc c => acc ++ validateComponent c) []
    let score := calculateScore issues
    let valid := (issues.filter (fun i => i.severity == Severity.error)).length == 0
    let summary := generateSummary issues score
    let passedRules := getPassedRules components issues
    .ok { valid := valid, score := score, issues := issues, summary := summary,
          passedRules := passedRules }

/-! ## get-layout-pattern.ts: data model -/

structure LayoutStructure where
  type : LayoutType
  direction : Option Direction := none
  gap : Option String := none
  columns : Option Nat := none
deriving DecidableEq, Repr

structure ComponentDef where
  name : String
  props : List (String × PropValue) := []
  slot : Option String := none
  children : Option ChildrenValue := none
deriving DecidableEq, Repr

structure SlotDef where
  name : String
  description : String
  accepts : List String
deriving DecidableEq, Repr

structure UsageDef where
  when : List String
  examples : List String
deriving DecidableEq, Repr

inductive ModalVariant where
  | default | destructive
deriving DecidableEq, Repr

structure PatternOptions where
  title : Option String := none
  description : Option String := none
  columns : Option Nat := none
  primaryAction : Option String := none
  secondaryAction : Option String := none
  variant : Option ModalVariant := none
deriving DecidableEq, Repr

structure PatternConfig where
  structure_ : LayoutStructure
  components : List ComponentDef
  slots : List SlotDef
  usage : UsageDef
  tokens : List String
  generateCode : Option PatternOptions → String

structure GetLayoutPatternInput where
  pattern : String
  options : Option PatternOptions := none

structure GetLayoutPatternOutput where
  pattern : String
  structure_ : LayoutStructure
  components : List ComponentDef
  code : String
  tokens : List String
  slots : List SlotDef
  usage : UsageDef
deriving DecidableEq, Repr

/-! ## get-layout-pattern.ts: pattern catalog -/

/-- `patterns["form-layout"].generateCode`. -/
def formLayoutGenCode (o : Option PatternOptions) : String :=
  let title := (o.bind (fun x => x.title)).getD "Form Title"
  let description := (o.bind (fun x => x.description)).getD "Enter your information below"
  let primaryAction := (o.bind (fun x => x.primaryAction)).getD "Submit"
  let secondaryAction := (o.bind (fun x => x.secondaryAction)).getD "Cancel"
  "<Card>\n  <CardHeader>\n    <CardTitle>" ++ title ++ "</CardTitle>\n    <CardDescription>" ++
    description ++ "</CardDescription>\n  </CardHeader>\n  <CardContent className=\"space-y-4\">\n    <div className=\"space-y-2\">\n      <Label htmlFor=\"field1\">Field 1</Label>\n      <Input id=\"field1\" placeholder=\"Enter value\" />\n    </div>\n    \x7b/* Add more fields here */\x7d\n  </CardContent>\n  <CardFooter>\n    <div className=\"flex justify-end gap-2 w-full\">\n      <Button variant=\"outline\">" ++
    secondaryAction ++ "</Button>\n      <Button>" ++ primaryAction ++
    "</Button>\n    </div>\n  </CardFooter>\n</Card>"

def formLayoutConfig : PatternConfig :=
  { structure_ := { type := .stack, direction := some .column, gap := some "6" },
    components := [
      { name := "Card", slot := some "wrapper" },
      { name := "CardHeader", slot := some "header" },
      { name := "CardTitle", slot := some "header" },
      { name := "CardDescription", slot := some "header" },
      { name := "CardContent", props := [("className", .str "space-y-4")], slot := some "content" },
      { name := "Input", slot := some "content" },
      { name := "CardFooter", props := [("className", .str "flex justify-end gap-2")], slot := some "footer" },
      { name := "Button", props := [("variant", .str "outline")], slot := some "footer" },
      { name := "Button", props := [("variant", .str "default")], slot := some "footer" }],
    slots := [
      { name := "fields", description := "Form field area", accepts := ["Input", "Select", "FormField"] },
      { name := "actions", description := "Footer action buttons", accepts := ["Button"] }],
    usage := { when := ["Collecting user input", "Data entry forms", "Settings forms"],
               examples := ["Contact form", "Profile edit", "Checkout form"] },
    tokens := ["border", "card", "card-foreground", "muted-foreground", "primary", "primary-foreground"],
    generateCode := formLayoutGenCode }

/-- `patterns["split-view"].generateCode`. -/
def splitViewGenCode (o : Option PatternOptions) : String :=
  let title := (o.bind (fun x => x.title)).getD "Dashboard"
  "<div className=\"grid grid-cols-[250px_1fr] min-h-screen\">\n  <aside className=\"border-r border-border bg-muted/30 p-4\">\n    <nav className=\"space-y-2\">\n      <Button variant=\"ghost\" className=\"w-full justify-start\">" ++
    title ++ "</Button>\n      <Button variant=\"ghost\" className=\"w-full justify-start\">Settings</Button>\n      <Button variant=\"ghost\" className=\"w-full justify-start\">Profile</Button>\n    </nav>\n  </aside>\n  <main className=\"p-6\">\n    \x7b/* Main content here */\x7d\n  </main>\n</div>"

def splitViewConfig : PatternConfig :=
  { structure_ := { type := .grid, columns := some 2, gap := some "0" },
    components := [
      { name := "div", props := [("className", .str "grid grid-cols-[250px_1fr] min-h-screen")], slot := some "wrapper" },
      { name := "aside", props := [("className", .str "border-r border-border bg-muted/30 p-4")], slot := some "sidebar" },
      { name := "nav", props := [("className", .str "space-y-2")], slot := some "sidebar" },
      { name := "Button", props := [("variant", .str "ghost"), ("className", .str "w-full justify-start")], slot := some "sidebar" },
      { name := "main", props := [("className", .str "p-6")], slot := some "main" }],
    slots := [
      { name := "sidebar", description := "Navigation sidebar", accepts := ["Button", "nav"] },
      { name := "main", description := "Main content area", accepts := ["Card", "div", "section"] }],
    usage := { when := ["Admin dashboards", "Settings pages", "Documentation sites"],
               examples := ["App settings", "User management", "Content editor"] },
    tokens := ["background", "border", "foreground", "muted"],
    generateCode := splitViewGenCode }

/-- Text of the dashboard-grid template before the grid-columns class. -/
def dashboardGridCodePre : String := "<div className=\"space-y-6\">\n  <div className=\"grid "

/-- Text of the dashboard-grid template after the grid-columns class. -/
def dashboardGridCodePost : String :=
  " gap-4\">\n    <Card>\n      <CardHeader className=\"pb-2\">\n        <CardTitle className=\"text-sm font-medium\">Total Users</CardTitle>\n      </CardHeader>\n      <CardContent>\n        <div className=\"text-2xl font-bold\">1,234</div>\n      </CardContent>\n    </Card>\n    <Card>\n      <CardHeader className=\"pb-2\">\n        <CardTitle className=\"text-sm font-medium\">Revenue</CardTitle>\n      </CardHeader>\n      <CardContent>\n        <div className=\"text-2xl font-bold\">$12,345</div>\n      </CardContent>\n    </Card>\n    <Card>\n      <CardHeader className=\"pb-2\">\n        <CardTitle className=\"text-sm font-medium\">Active Now</CardTitle>\n      </CardHeader>\n      <CardContent>\n        <div className=\"text-2xl font-bold\">42</div>\n      </CardContent>\n    </Card>\n  </div>\n  <Card className=\"col-span-full\">\n    \x7b/* Main content here */\x7d\n  </Card>\n</div>"

/-- `patterns["dashboard-grid"].generateCode`:
`const columns = options?.columns ?? 3` substituted into `grid-cols-${columns}`. -/
def dashboardGridGenCode (o : Option PatternOptions) : String :=
  let columns := (o.bind (fun x => x.columns)).getD 3
  dashboardGridCodePre ++ ("grid-cols-" ++ toString columns) ++ dashboardGridCodePost

def dashboardGridConfig : PatternConfig :=
  { structure_ := { type := .grid, columns := some 3, gap := some "4" },
    components := [
      { name := "div", props := [("className", .str "space-y-6")], slot := some "wrapper" },
      { name := "div", props := [("className", .str "grid gap-4")], slot := some "stats" },
      { name := "Card", slot := some "stats" },
      { name := "CardHeader", props := [("className", .str "pb-2")], slot := some "stats" },
      { name := "CardTitle", props := [("className", .str "text-sm font-medium")], slot := some "stats" },
      { name := "CardContent", slot := some "stats" }],
    slots := [
      { name := "stats", description := "Stat card grid", accepts := ["Card"] },
      { name := "main", description := "Main content area below stats", accepts := ["Card", "div"] }],
    usage := { when := ["Analytics dashboards", "Admin overviews", "Metrics displays"],
               examples := ["Sales dashboard", "User analytics", "System status"] },
    tokens := ["border", "card", "card-foreground", "muted-foreground"],
    generateCode := dashboardGridGenCode }

/-- `patterns["modal-confirm"].generateCode`. -/
def modalConfirmGenCode (o : Option PatternOptions) : String :=
  let title := (o.bind (fun x => x.title)).getD "Confirm Action"
  let description := (o.bind (fun x => x.description)).getD "Are you sure you want to proceed?"
  let primaryAction := (o.bind (fun x => x.primaryAction)).getD "Confirm"
  let secondaryAction := (o.bind (fun x => x.secondaryAction)).getD "Cancel"
  let variant := (o.bind (fun x => x.variant)).getD .default
  let primaryButton := if variant = .destructive then
      "<Button variant=\"destructive\">" ++ primaryAction ++ "</Button>"
    else "<Button>" ++ primaryAction ++ "</Button>"
  "<Modal>\n  <Modal.Trigger>\n    <Button variant=\"outline\">Open</Button>\n  </Modal.Trigger>\n  <Modal.Content title=\"" ++
    title ++ "\" description=\"" ++ description ++
    "\">\n    <div className=\"flex justify-end gap-2 mt-4\">\n      <Button variant=\"outline\">" ++
    secondaryAction ++ "</Button>\n      " ++ primaryButton ++
    "\n    </div>\n  </Modal.Content>\n</Modal>"

def modalConfirmConfig : PatternConfig :=
  { structure_ := { type := .stack, direction := some .column, gap := some "4" },
    components := [
      { name := "Modal", slot := some "wrapper" },
      { name := "Modal.Trigger", slot := some "trigger" },
      { name := "Button", props := [("variant", .str "outline")], slot := some "trigger" },
      { name := "Modal.Content", slot := some "content" },
      { name := "Button", props := [("variant", .str "outline")], slot := some "actions" },
      { name := "Button", slot := some "actions" }],
    slots := [
      { name := "trigger", description := "Element that opens the modal", accepts := ["Button"] },
      { name := "content", description := "Modal body content", accepts := ["div", "p", "form"] },
      { name := "actions", description := "Action buttons", accepts := ["Button"] }],
    usage := { when := ["Destructive actions", "Confirmations", "Important decisions"],
               examples := ["Delete confirmation", "Logout prompt", "Discard changes"] },
    tokens := ["background", "border", "card", "foreground", "muted-foreground", "primary", "destructive"],
    generateCode := modalConfirmGenCode }

/-- `patterns["list-with-actions"].generateCode`. -/
def listWithActionsGenCode (o : Option PatternOptions) : String :=
  let title := (o.bind (fun x => x.title)).getD "Items"
  let description := (o.bind (fun x => x.description)).getD "Manage your items"
  "<Card>\n  <CardHeader>\n    <CardTitle>" ++ title ++ "</CardTitle>\n    <CardDescription>" ++
    description ++ "</CardDescription>\n  </CardHeader>\n  <CardContent className=\"p-0\">\n    <div className=\"divide-y divide-border\">\n      <div className=\"flex items-center justify-between p-4\">\n        <div>Item 1</div>\n        <div className=\"flex gap-2\">\n          <Button variant=\"ghost\" size=\"sm\">Edit</Button>\n          <Button variant=\"ghost\" size=\"sm\">Delete</Button>\n        </div>\n      </div>\n      <div className=\"flex items-center justify-between p-4\">\n        <div>Item 2</div>\n        <div className=\"flex gap-2\">\n          <Button variant=\"ghost\" size=\"sm\">Edit</Button>\n          <Button variant=\"ghost\" size=\"sm\">Delete</Button>\n        </div>\n      </div>\n    </div>\n  </CardContent>\n  <CardFooter className=\"justify-center\">\n    <Button variant=\"outline\">Load More</Button>\n  </CardFooter>\n</Card>"

def listWithActionsConfig : PatternConfig :=
  { structure_ := { type := .stack, direction := some .column, gap := some "0" },
    components := [
      { name := "Card", slot := some "wrapper" },
      { name := "CardHeader", slot := some "header" },
      { name := "CardTitle", slot := some "header" },
      { name := "CardDescription", slot := some "header" },
      { name := "CardContent", props := [("className", .str "p-0")], slot := some "content" },
      { name := "div", props := [("className", .str "divide-y divide-border")], slot := some "items" },
      { name := "Button", props := [("variant", .str "ghost"), ("size", .str "sm")], slot := some "actions" },
      { name := "CardFooter", props := [("className", .str "justify-center")], slot := some "footer" }],
    slots := [
      { name := "items", description := "List items", accepts := ["div", "ListItem"] },
      { name := "actions", description := "Per-item actions", accepts := ["Button"] },
      { name := "pagination", description := "Pagination controls", accepts := ["Button", "Pagination"] }],
    usage := { when := ["Data lists", "User management", "Content management"],
               examples := ["User list", "Product inventory", "Task list"] },
    tokens := ["border", "card", "card-foreground", "muted-foreground", "primary"],
    generateCode := listWithActionsGenCode }

/-- `patterns["hero-section"].generateCode`. -/
def heroSectionGenCode (o : Option PatternOptions) : String :=
  let title := (o.bind (fun x => x.title)).getD "Welcome to Our App"
  let description := (o.bind (fun x => x.description)).getD
    "Build amazing things with our powerful tools and intuitive interface."
  let primaryAction := (o.bind (fun x => x.primaryAction)).getD "Get Started"
  let secondaryAction := (o.bind (fun x => x.secondaryAction)).getD "Learn More"
  "<section className=\"flex flex-col items-center justify-center min-h-[60vh] text-center px-4\">\n  <h1 className=\"text-4xl font-bold tracking-tight sm:text-6xl\">\n    " ++
    title ++ "\n  </h1>\n  <p className=\"mt-6 text-lg text-muted-foreground max-w-2xl\">\n    " ++
    description ++ "\n  </p>\n  <div className=\"mt-10 flex items-center justify-center gap-4\">\n    <Button size=\"lg\">" ++
    primaryAction ++ "</Button>\n    <Button variant=\"outline\" size=\"lg\">" ++ secondaryAction ++
    "</Button>\n  </div>\n</section>"

def heroSectionConfig : PatternConfig :=
  { structure_ := { type := .flex, direction := some .column, gap := some "6" },
    components := [
      { name := "section", props := [("className", .str "flex flex-col items-center justify-center min-h-[60vh] text-center px-4")], slot := some "wrapper" },
      { name := "h1", props := [("className", .str "text-4xl font-bold tracking-tight sm:text-6xl")], slot := some "headline" },
      { name := "p", props := [("className", .str "mt-6 text-lg text-muted-foreground max-w-2xl")], slot := some "description" },
      { name := "div", props := [("className", .str "mt-10 flex items-center justify-center gap-4")], slot := some "actions" },
      { name := "Button", props := [("size", .str "lg")], slot := some "actions" },
      { name := "Button", props := [("variant", .str "outline"), ("size", .str "lg")], slot := some "actions" }],
    slots := [
      { name := "headline", description := "Main headline", accepts := ["h1", "span"] },
      { name := "description", description := "Supporting text", accepts := ["p", "span"] },
      { name := "actions", description := "CTA buttons", accepts := ["Button"] }],
    usage := { when := ["Landing pages", "Marketing pages", "Product launches"],
               examples := ["Homepage hero", "Feature announcement", "Waitlist signup"] },
    tokens := ["background", "foreground", "muted-foreground", "primary", "primary-foreground"],
    generateCode := heroSectionGenCode }

/-- `patterns["empty-state"].generateCode`. -/
def emptyStateGenCode (o : Option PatternOptions) : String :=
  let title := (o.bind (fun x => x.title)).getD "No items yet"
  let description := (o.bind (fun x => x.description)).getD "Get started by creating your first item."
  let primaryAction := (o.bind (fun x => x.primaryAction)).getD "Create Item"
  "<div className=\"flex flex-col items-center justify-center py-12 text-center\">\n  <div className=\"rounded-full bg-muted p-4 mb-4\">\n    <InboxIcon className=\"h-8 w-8 text-muted-foreground\" />\n  </div>\n  <h3 className=\"text-lg font-semibold\">" ++
    title ++ "</h3>\n  <p className=\"text-sm text-muted-foreground max-w-sm mt-2\">\n    " ++
    description ++ "\n  </p>\n  <div className=\"mt-6\">\n    <Button>" ++ primaryAction ++
    "</Button>\n  </div>\n</div>"

def emptyStateConfig : PatternConfig :=
  { structure_ := { type := .flex, direction := some .column, gap := some "4" },
    components := [
      { name := "div", props := [("className", .str "flex flex-col items-center justify-center py-12 text-center")], slot := some "wrapper" },
      { name := "div", props := [("className", .str "rounded-full bg-muted p-4 mb-4")], slot := some "icon" },
      { name := "h3", props := [("className", .str "text-lg font-semibold")], slot := some "message" },
      { name := "p", props := [("className", .str "text-sm text-muted-foreground max-w-sm mt-2")], slot := some "message" },
      { name := "div", props := [("className", .str "mt-6")], slot := some "actions" },
      { name := "Button", slot := some "actions" }],
    slots := [
      { name := "icon", description := "Illustration or icon", accepts := ["svg", "img", "div"] },
      { name := "message", description := "Empty state message", accepts := ["h3", "p"] },
      { name := "actions", description := "Action to resolve empty state", accepts := ["Button"] }],
    usage := { when := ["No data to display", "First-time user experience", "Search with no results"],
               examples := ["Empty inbox", "No search results", "No projects yet"] },
    tokens := ["background", "foreground", "muted", "muted-foreground", "primary"],
    generateCode := emptyStateGenCode }

/-- The startup value of the `patterns` record: name → configuration. -/
def patternsTable : String → Option PatternConfig
  | "form-layout" => some formLayoutConfig
  | "split-view" => some splitViewConfig
  | "dashboard-grid" => some dashboardGridConfig
  | "modal-confirm" => some modalConfirmConfig
  | "list-with-actions" => some listWithActionsConfig
  | "hero-section" => some heroSectionConfig
  | "empty-state" => some emptyStateConfig
  | _ => none

/-- `Object.keys(patterns).join(", ")`. -/
def patternNamesJoined : String :=
  "form-layout, split-view, dashboard-grid, modal-confirm, list-with-actions, hero-section, empty-state"

/-- `getLayoutPattern` in state-passing form: the call reads the catalog and
returns it unchanged, because the source copies the structure
(`{...config.structure}`) before the conditional `columns` assignment instead
of writing through `config`.  The `options?.columns` truthiness test skips the
override for a zero column count. -/
def getLayoutPatternSt (st : String → Option PatternConfig) (input : GetLayoutPatternInput) :
    Except String GetLayoutPatternOutput × (String → Option PatternConfig) :=
  match st input.pattern with
  | none =>
    (.error ("Invalid pattern: \"" ++ input.pattern ++ "\". Available patterns: " ++
      patternNamesJoined), st)
  | some config =>
    let code := config.generateCode input.options
    let structure_ := if input.pattern = "dashboard-grid" then
        match input.options.bind (fun x => x.columns) with
        | some n => if n ≠ 0 then { config.structure_ with columns := some n }
                    else config.structure_
        | none => config.structure_
      else config.structure_
    (.ok { pattern := input.pattern, structure_ := structure_,
           components := config.components, code := code,
           tokens := sortStrings config.tokens, slots := config.slots,
           usage := config.usage }, st)

/-- `getLayoutPattern`, run against the startup catalog. -/
def getLayoutPattern (input : GetLayoutPatternInput) : Except String GetLayoutPatternOutput :=
  (getLayoutPatternSt patternsTable input).1

/-! ## Lemmas: stable descending sort and the first maximum -/

/-- Maximal score in a scored pattern list. -/
def maxScore (l : List (IntentPattern × Nat)) : Nat :=
  l.foldr (fun x m => max x.2 m) 0

theorem insertDesc_ne_nil (x : IntentPattern × Nat) (l : List (IntentPattern × Nat)) :
    insertDesc x l ≠ [] := by
  cases l with
  | nil => simp [insertDesc]
  | cons y ys =>
    unfold insertDesc
    split <;> simp

theorem sortDesc_eq_nil_iff (l : List (IntentPattern × Nat)) :
    sortDesc l = [] ↔ l = [] := by
  cases l with
  | nil => simp [sortDesc]
  | cons a t =>
    simp only [sortDesc, List.foldr_cons]
    exact ⟨fun h => absurd h (insertDesc_ne_nil a _), fun h => by simp at h⟩

theorem find?_cons_true {α : Type _} (p : α → Bool) (a : α) (l : List α) (h : p a = true) :
    List.find? p (a :: l) = some a := by
  simp [List.find?, h]

theorem find?_cons_false {α : Type _} (p : α → Bool) (a : α) (l : List α) (h : p a = false) :
    List.find? p (a :: l) = List.find? p l := by
  simp [List.find?, h]

/-- The head of the stable descending sort is the earliest element attaining
the maximal score. -/
theorem sortDesc_head (l : List (IntentPattern × Nat)) :
    (sortDesc l).head? = l.find? (fun x => x.2 == maxScore l) := by
  induction l with
  | nil => rfl
  | cons a t ih =>
    have hstep : sortDesc (a :: t) = insertDesc a (sortDesc t) := rfl
    cases hs : sortDesc t with
    | nil =>
      have ht : t = [] := (sortDesc_eq_nil_iff t).mp hs
      subst ht
      simp [sortDesc, insertDesc, maxScore, List.find?]
    | cons b bs =>
      have hfind : t.find? (fun x => x.2 == maxScore t) = some b := by
        rw [← ih, hs]; rfl
      have hb2 : b.2 = maxScore t := by
        have := List.find?_some hfind
        simpa using this
      rw [hstep, hs]
      unfold insertDesc
      split
      · -- b.2 > a.2: the head stays b, and a is not a maximum
        rename_i hgt
        have hmax : maxScore (a :: t) = maxScore t := by
          show max a.2 (maxScore t) = maxScore t
          exact Nat.max_eq_right (Nat.le_of_lt (hb2 ▸ hgt))
        have hcond : (a.2 == maxScore (a :: t)) = false := by
          simp only [hmax, beq_eq_false_iff_ne, ne_eq]
          omega
        rw [find?_cons_false (fun x => x.2 == maxScore (a :: t)) a t hcond]
        simp only [hmax, hfind, List.head?]
      · -- b.2 ≤ a.2: a itself is the earliest maximum
        rename_i hle
        have hmax : maxScore (a :: t) = a.2 := by
          show max a.2 (maxScore t) = a.2
          omega
        have hcond : (a.2 == maxScore (a :: t)) = true := by
          simp [hmax]
        rw [find?_cons_true (fun x => x.2 == maxScore (a :: t)) a t hcond]
        rfl

/-- `find?` through the pairing map used by `matchIntent`. -/
theorem find?_map_pair (g : IntentPattern → Nat) (m : Nat) (l : List IntentPattern) :
    (l.map (fun p => (p, g p))).find? (fun x => x.2 == m)
      = (l.find? (fun p => g p == m)).map (fun p => (p, g p)) := by
  induction l with
  | nil => rfl
  | cons a t ih =>
    cases h : (g a == m) with
    | true =>
      rw [List.map_cons,
        find?_cons_true (fun x : IntentPattern × Nat => x.2 == m) (a, g a) _ h,
        find?_cons_true (fun p => g p == m) a t h]
      rfl
    | false =>
      rw [List.map_cons,
        find?_cons_false (fun x : IntentPattern × Nat => x.2 == m) (a, g a) _ h,
        find?_cons_false (fun p => g p == m) a t h, ih]

/-- `maxScore` over the pairing map is the folded maximum of the raw scores. -/
theorem maxScore_map_pair (g : IntentPattern → Nat) (l : List IntentPattern) :
    maxScore (l.map (fun p => (p, g p))) = (l.map g).foldr max 0 := by
  unfold maxScore
  rw [List.foldr_map, List.foldr_map]

/-- C1: For every intent string, `matchIntent` scores each of the six fixed
intent patterns by how many of that pattern's keywords occur as substrings
of the lower-cased intent, and returns the pattern with the highest count,
ties being won by the pattern declared earliest in the fixed pattern list;
it returns `none` exactly when the highest count is 0 (this is what
`matchIntentSpec` states verbatim). -/
theorem matchIntent_matches_spec (intent : String) :
    matchIntent intent = matchIntentSpec intent := by
  simp only [matchIntent, matchIntentSpec]
  set n := lowerStr intent with hn
  set scored := intentPatterns.map (fun p => (p, keywordScore n p)) with hscored
  set m := (intentPatterns.map (keywordScore n)).foldr max 0 with hm
  have hmx : maxScore scored = m := by
    rw [hscored, maxScore_map_pair, hm]
  have hfd : scored.find? (fun x => x.2 == m)
      = (intentPatterns.find? (fun p => keywordScore n p == m)).map
          (fun p => (p, keywordScore n p)) := by
    rw [hscored]
    exact find?_map_pair (keywordScore n) m intentPatterns
  cases hs : sortDesc scored with
  | nil =>
    exfalso
    have := (sortDesc_eq_nil_iff scored).mp hs
    rw [hscored] at this
    simp [intentPatterns] at this
  | cons best rest =>
    have hhead : some best = scored.find? (fun x => x.2 == maxScore scored) := by
      rw [← sortDesc_head, hs]; rfl
    rw [hmx, hfd] at hhead
    obtain ⟨q, hq, hqb⟩ := Option.map_eq_some'.mp hhead.symm
    have hgq : keywordScore n q = m := by
      have := List.find?_some hq
      simpa using this
    by_cases hm0 : m = 0
    · have hb2 : best.2 = 0 := by rw [← hqb]; simpa [hm0] using hgq
      simp [hb2, hm0]
    · have hpos : best.2 > 0 := by
        rw [← hqb]
        simpa [hgq] using Nat.pos_of_ne_zero hm0
      have hb1 : best.1 = q := by rw [← hqb]
      simp [hpos, hm0, hq, hb1]

set_option maxRecDepth 100000

/-- C2: `composeInterface({intent:"login form", context:"section"})` yields a
stack/column layout, a component list with a "Card", an email Input and a
password Input, and code containing "<Card>", an email type attribute, a
password type attribute and "</Card>". -/
theorem composeInterface_login_form_roundtrip :
    ∃ out, composeInterface { intent := "login form", context := .section } = .ok out ∧
      out.layout.type = LayoutType.stack ∧
      out.layout.direction = some Direction.column ∧
      (∃ c ∈ out.components, c.name = "Card") ∧
      (∃ c ∈ out.components, c.name = "Input" ∧
        propLookup c.props "type" = some (PropValue.str "email")) ∧
      (∃ c ∈ out.components, c.name = "Input" ∧
        propLookup c.props "type" = some (PropValue.str "password")) ∧
      strIncludes out.code "<Card>" = true ∧
      strIncludes out.code "type=\"email\"" = true ∧
      strIncludes out.code "type=\"password\"" = true ∧
      strIncludes out.code "</Card>" = true :=
  ⟨_, rfl, by decide, by decide, by decide, by decide, by decide, by decide,
    by decide, by decide, by decide⟩

/-- C3: the code renders every slot-less component twice in the flat layout,
because `generateCode` concatenates the unslotted bucket with the filter of
the components lacking a slot, which are the same list.  At
`{intent:"navigation header", context:"section"}` the rendered "Home" button
appears twice in the generated code, where the claim requires each such
component to be rendered exactly once. -/
theorem composeInterface_navigation_duplicate_render :
    ∃ out, composeInterface { intent := "navigation header", context := .section } = .ok out ∧
      (groupBySlot out.components).wrapper = [] ∧
      out.components.length = 3 ∧
      countOccur out.code "<Button variant=\"ghost\">Home</Button>" = 2 :=
  ⟨_, rfl, by decide, by decide, by decide⟩

/-- C4 counterexample: for an `img` whose alt text is "photo of a cat" the
code raises the "redundant-alt" warning although the alt text contains
neither "image of" nor "picture of", refuting the claimed
if-and-only-if condition. -/
theorem validateImage_photo_counterexample :
    ((validateImage { name := "img", props := [("alt", PropValue.str "photo of a cat")] }).map
        (fun i => i.rule)) = ["redundant-alt"] ∧
      strIncludes (lowerStr "photo of a cat") "image of" = false ∧
      strIncludes (lowerStr "photo of a cat") "picture of" = false :=
  ⟨by decide, by decide, by decide⟩

theorem strLength_pos_iff (s : String) : s.length > 0 ↔ s ≠ "" := by
  cases s with
  | mk data =>
    cases data with
    | nil => simp [String.length]
    | cons c t =>
      constructor
      · intro _ h
        exact absurd (congrArg String.data h) (by simp)
      · intro _
        simp [String.length]

/-- C4 amended: `validateImage` raises the "redundant-alt" warning iff the
`alt` prop is a non-empty string whose lower-cased text contains "image of",
"picture of" or "photo of". -/
theorem validateImage_redundant_alt_iff (c : ComponentInput) :
    (∃ i ∈ validateImage c, i.rule = "redundant-alt") ↔
      (∃ s, propLookup c.props "alt" = some (PropValue.str s) ∧ s ≠ "" ∧
        (strIncludes (lowerStr s) "image of" = true ∨
         strIncludes (lowerStr s) "picture of" = true ∨
         strIncludes (lowerStr s) "photo of" = true)) := by
  simp only [validateImage]
  cases halt : propLookup c.props "alt" with
  | none =>
    constructor
    · rintro ⟨i, hi, hrule⟩
      simp at hi
      subst hi
      exact absurd hrule (by decide)
    · rintro ⟨s, hs, -, -⟩
      exact absurd hs (by simp)
  | some v =>
    cases v with
    | str s =>
      by_cases hlen : s.length > 0
      · cases hB : (strIncludes (lowerStr s) "image of" || strIncludes (lowerStr s) "picture of"
            || strIncludes (lowerStr s) "photo of") with
        | true =>
          simp only [hlen, if_true, hB]
          constructor
          · intro _
            refine ⟨s, rfl, (strLength_pos_iff s).mp hlen, ?_⟩
            have hB' := hB
            simp only [Bool.or_eq_true] at hB'
            tauto
          · intro _
            simp
        | false =>
          simp only [hlen, if_true, hB]
          constructor
          · rintro ⟨i, hi, hrule⟩
            simp at hi
          · rintro ⟨s', hs', -, hor⟩
            injection hs' with h1
            injection h1 with h2
            subst h2
            simp at hB
            rcases hor with h | h | h <;> simp_all
      · simp only [hlen, if_false]
        constructor
        · rintro ⟨i, hi, hrule⟩
          simp at hi
        · rintro ⟨s', hs', hne, -⟩
          injection hs' with h1
          injection h1 with h2
          subst h2
          exact absurd ((strLength_pos_iff s).mpr hne) hlen
    | bool b =>
      constructor
      · rintro ⟨i, hi, hrule⟩
        simp at hi
      · rintro ⟨s, hs, -, -⟩
        exact absurd hs (by simp)
    | num lit =>
      constructor
      · rintro ⟨i, hi, hrule⟩
        simp at hi
      · rintro ⟨s, hs, -, -⟩
        exact absurd hs (by simp)

theorem foldl_sub_weights (issues : List AccessibilityIssue) (s : Int) :
    issues.foldl (fun sc i => sc - severityWeight i.severity) s
      = s - 25 * (countSeverity .error issues : Int)
          - 10 * (countSeverity .warning issues : Int)
          - 2 * (countSeverity .info issues : Int) := by
  induction issues generalizing s with
  | nil => simp [countSeverity]
  | cons i t ih =>
    rw [List.foldl_cons, ih]
    cases hsev : i.severity <;>
      simp [countSeverity, List.filter_cons, hsev, severityWeight] <;>
      omega

/-- C5: for every call of `validateAccessibility` that returns a result, the
score equals `max(0, 100 - 25*errors - 10*warnings - 2*infos)` over the
returned issues, and `valid` holds exactly when the error count is 0;
in particular five Buttons without children text and aria-label score
exactly 0. -/
theorem validateAccessibility_score_formula :
    (∀ input r, validateAccessibility input = .ok r →
       r.score = max 0 (100 - 25 * (countSeverity .error r.issues : Int)
                          - 10 * (countSeverity .warning r.issues : Int)
                          - 2 * (countSeverity .info r.issues : Int)) ∧
       (r.valid = true ↔ countSeverity .error r.issues = 0)) ∧
    (validateAccessibility { components := some (List.replicate 5 { name := "Button" }) }).toOption.map
        (fun r => r.score) = some 0 := by
  constructor
  · intro input r h
    unfold validateAccessibility at h
    split at h
    · exact absurd h (by simp)
    · injection h with h'
      subst h'
      constructor
      · show calculateScore _ = _
        rw [calculateScore, foldl_sub_weights]
      · show ((List.filter _ _).length == 0) = true ↔ _
        simp [countSeverity, Nat.beq_eq_true_eq]
  · decide

/-- C5 witness: the score formula and validity equivalence instantiated at
the empty component list. -/
theorem validateAccessibility_score_formula_witness :
    ∃ r, validateAccessibility { components := some ([] : List ComponentInput) } = .ok r ∧
      r.score = max 0 (100 - 25 * (countSeverity .error r.issues : Int)
                         - 10 * (countSeverity .warning r.issues : Int)
                         - 2 * (countSeverity .info r.issues : Int)) ∧
      (r.valid = true ↔ countSeverity .error r.issues = 0) :=
  ⟨_, rfl, validateAccessibility_score_formula.1
    { components := some ([] : List ComponentInput) } _ rfl⟩

/-- C6 counterexample: supplying `code` as the empty string with no
components still throws, although code was supplied, refuting "throws
exactly when neither code nor components is supplied". -/
theorem validateAccessibility_empty_code_counterexample :
    validateAccessibility { code := some "" }
        = .error "Either code or components must be provided" ∧
      (some "" : Option String) ≠ none :=
  ⟨rfl, by simp⟩

/-- C6 amended: `validateAccessibility` throws exactly when `components` is
absent and `code` is absent or empty (the source's `!code` truthiness test);
when `components` is supplied, the result is computed from it alone, so the
`code` argument never affects the outcome. -/
theorem validateAccessibility_throw_iff_and_components_priority :
    (∀ input : ValidateAccessibilityInput,
       (∃ e, validateAccessibility input = .error e) ↔
         ((input.code = none ∨ input.code = some "") ∧ input.components = none)) ∧
    (∀ (comps : List ComponentInput) (code₁ code₂ : Option String) (ctx : VContext),
       validateAccessibility { code := code₁, components := some comps, context := ctx }
         = validateAccessibility { code := code₂, components := some comps, context := ctx }) := by
  constructor
  · intro input
    unfold validateAccessibility
    cases hcond : (jsFalsyOptStr input.code && input.components.isNone) with
    | true =>
      simp only [hcond, if_true]
      rw [Bool.and_eq_true] at hcond
      obtain ⟨hf, hn⟩ := hcond
      constructor
      · intro _
        refine ⟨?_, Option.isNone_iff_eq_none.mp hn⟩
        cases hc : input.code with
        | none => exact Or.inl rfl
        | some s =>
          right
          rw [hc] at hf
          simp only [jsFalsyOptStr, String.isEmpty_iff] at hf
          rw [hf]
      · intro _
        exact ⟨_, rfl⟩
    | false =>
      simp only [hcond, Bool.false_eq_true, if_false]
      constructor
      · rintro ⟨e, he⟩
        exact absurd he (by simp)
      · rintro ⟨hc, hn⟩
        have htrue : (jsFalsyOptStr input.code && input.components.isNone) = true := by
          rcases hc with h | h <;> simp [h, hn, jsFalsyOptStr, String.isEmpty_iff]
        rw [htrue] at hcond
        cases hcond
  · intro comps c₁ c₂ ctx
    simp only [validateAccessibility, Option.isNone_some, Bool.and_false,
      Bool.false_eq_true, if_false]

/-- C7: `composeInterface` throws exactly when the intent is empty or
whitespace-only, and a non-blank intent matching no pattern yields the fixed
fallback payload (stack/column layout, no components, a commented fallback
code string, no tokens, the fixed suggestion list) instead of throwing. -/
theorem composeInterface_blank_reject_and_fallback :
    (∀ (intent : String) (ctx : ContextKind),
       (∃ e, composeInterface { intent := intent, context := ctx } = .error e) ↔
         jsTrim intent = "") ∧
    (∀ (intent : String) (ctx : ContextKind), jsTrim intent ≠ "" → matchIntent intent = none →
       composeInterface { intent := intent, context := ctx } = .ok composeFallback) := by
  constructor
  · intro intent ctx
    unfold composeInterface
    by_cases h : jsTrim intent = ""
    · simp [h]
    · simp only [h, if_false]
      cases matchIntent intent <;> simp
  · intro intent ctx h hnone
    unfold composeInterface
    simp [h, hnone]

/-- C7 witness: a non-blank unmatched intent receives the fallback payload. -/
theorem composeInterface_blank_reject_and_fallback_witness :
    composeInterface { intent := "team roster table", context := .section } = .ok composeFallback :=
  composeInterface_blank_reject_and_fallback.2 "team roster table" .section
    (by decide) (by decide)

theorem addToken_nodup {acc : List String} {t : String} (h : acc.Nodup) :
    (addToken acc t).Nodup := by
  unfold addToken
  split
  · exact h
  · rename_i hmem
    rw [List.nodup_append]
    exact ⟨h, List.nodup_singleton t,
      fun a ha hat => hmem ((List.mem_singleton.mp hat) ▸ ha)⟩

theorem foldl_addToken_nodup (ts : List String) (acc : List String) (h : acc.Nodup) :
    (ts.foldl addToken acc).Nodup := by
  induction ts generalizing acc with
  | nil => exact h
  | cons t ts ih => exact ih _ (addToken_nodup h)

theorem collect_fold_nodup (comps : List ComponentDefinition) (acc : List String)
    (h : acc.Nodup) :
    (comps.foldl (fun acc c => (tokenMap c.name).foldl addToken acc) acc).Nodup := by
  induction comps generalizing acc with
  | nil => exact h
  | cons c cs ih => exact ih _ (foldl_addToken_nodup _ _ h)

theorem tokenMap_eq_nil_of_not_mem {name : String} (h : name ∉ tokenTableNames) :
    tokenMap name = [] := by
  unfold tokenMap
  split <;> simp_all [tokenTableNames]

/-- C8: `collectTokens` always returns an ascending, duplicate-free list;
the empty component list yields `[]`, and a component whose name is outside
the fixed token table contributes nothing. -/
theorem collectTokens_sorted_nodup_unknown :
    (∀ comps : List ComponentDefinition,
        (collectTokens comps).Sorted (· ≤ ·) ∧ (collectTokens comps).Nodup) ∧
    collectTokens [] = [] ∧
    (∀ (comps : List ComponentDefinition) (c : ComponentDefinition),
        c.name ∉ tokenTableNames → collectTokens (comps ++ [c]) = collectTokens comps) := by
  refine ⟨fun comps => ⟨?_, ?_⟩, rfl, fun comps c h => ?_⟩
  · unfold collectTokens sortStrings
    exact List.sorted_insertionSort _ _
  · unfold collectTokens sortStrings
    exact (List.perm_insertionSort _ _).nodup_iff.mpr
      (collect_fold_nodup comps [] List.nodup_nil)
  · unfold collectTokens
    rw [List.foldl_append]
    simp [tokenMap_eq_nil_of_not_mem h]

/-- C8 witness: a name outside the token table leaves the collected tokens
unchanged. -/
theorem collectTokens_sorted_nodup_unknown_witness :
    collectTokens ([{ name := "Button" }] ++ [{ name := "Widget" }])
      = collectTokens [{ name := "Button" }] :=
  collectTokens_sorted_nodup_unknown.2.2 [{ name := "Button" }] { name := "Widget" }
    (by decide)

theorem isPrefixOf_append_self (l t : List Char) : l.isPrefixOf (l ++ t) = true := by
  induction l with
  | nil => simp [List.isPrefixOf]
  | cons x xs ih => simp [List.isPrefixOf, ih]

theorem containsSub_append_self (a b c : List Char) : containsSub b (a ++ (b ++ c)) = true := by
  induction a with
  | nil =>
    rw [List.nil_append]
    cases b with
    | nil =>
      cases c with
      | nil => rfl
      | cons x t => simp [containsSub, List.isPrefixOf]
    | cons x xs =>
      rw [List.cons_append]
      simp only [containsSub]
      rw [show x :: (xs ++ c) = (x :: xs) ++ c from rfl, isPrefixOf_append_self]
      rfl
  | cons d a' ih =>
    rw [List.cons_append]
    simp only [containsSub]
    rw [ih]
    simp

theorem strData_append (x y : String) : (x ++ y).data = x.data ++ y.data := by
  cases x
  cases y
  rfl

theorem strIncludes_append (a b c : String) : strIncludes (a ++ b ++ c) b = true := by
  unfold strIncludes
  rw [strData_append, strData_append, List.append_assoc]
  exact containsSub_append_self a.data b.data c.data

/-- `getLayoutPattern` on "dashboard-grid", computed. -/
theorem getLayoutPattern_dashboard (opts : PatternOptions) :
    getLayoutPattern { pattern := "dashboard-grid", options := some opts } =
      .ok { pattern := "dashboard-grid",
            structure_ := match opts.columns with
              | some n => if n ≠ 0 then { dashboardGridConfig.structure_ with columns := some n }
                          else dashboardGridConfig.structure_
              | none => dashboardGridConfig.structure_,
            components := dashboardGridConfig.components,
            code := dashboardGridGenCode (some opts),
            tokens := sortStrings dashboardGridConfig.tokens,
            slots := dashboardGridConfig.slots,
            usage := dashboardGridConfig.usage } := rfl

/-- C9: `options.columns` only affects the "dashboard-grid" pattern: supplied
there (within the schema's 1..6 domain), the returned structure's columns
equal the override and the code contains the overridden grid-cols class; the
six other patterns return the same structure and code for every value of
`options.columns`. -/
theorem getLayoutPattern_columns_override_only_dashboard :
    (∀ (opts : PatternOptions) (n : Nat), opts.columns = some n → 1 ≤ n →
       ∃ out, getLayoutPattern { pattern := "dashboard-grid", options := some opts } = .ok out ∧
         out.structure_.columns = some n ∧
         strIncludes out.code ("grid-cols-" ++ toString n) = true) ∧
    (∀ p ∈ (["form-layout", "split-view", "modal-confirm", "list-with-actions",
             "hero-section", "empty-state"] : List String),
       ∀ (opts : PatternOptions) (cols : Option Nat),
         ∃ out₁ out₂,
           getLayoutPattern { pattern := p, options := some { opts with columns := cols } }
             = .ok out₁ ∧
           getLayoutPattern { pattern := p, options := some opts } = .ok out₂ ∧
           out₁.structure_ = out₂.structure_ ∧ out₁.code = out₂.code) := by
  constructor
  · intro opts n hcol hpos
    have hne : n ≠ 0 := by omega
    rw [getLayoutPattern_dashboard]
    refine ⟨_, rfl, ?_, ?_⟩
    · simp [hcol, hne]
    · show strIncludes (dashboardGridGenCode (some opts)) ("grid-cols-" ++ toString n) = true
      unfold dashboardGridGenCode
      rw [Option.some_bind, hcol, Option.getD_some]
      exact strIncludes_append dashboardGridCodePre ("grid-cols-" ++ toString n)
        dashboardGridCodePost
  · intro p hp opts cols
    fin_cases hp <;> exact ⟨_, _, rfl, rfl, rfl, rfl⟩

/-- C9 witness: dashboard-grid with `columns := 4` returns columns 4 and a
"grid-cols-4" class. -/
theorem getLayoutPattern_columns_override_only_dashboard_witness :
    ∃ out, getLayoutPattern { pattern := "dashboard-grid", options := some { columns := some 4 } } = .ok out ∧
      out.structure_.columns = some 4 ∧
      strIncludes out.code ("grid-cols-" ++ toString 4) = true :=
  getLayoutPattern_columns_override_only_dashboard.1 { columns := some 4 } 4 rfl (by decide)

/-- C10: the state-passing translation of `getLayoutPattern` returns the
pattern catalog unchanged on every call (the source copies the structure
before the columns override), so a "dashboard-grid" call with
`options.columns = 4` followed by one without options still yields the
static default of 3 columns. -/
theorem getLayoutPattern_catalog_immutable :
    (∀ (st : String → Option PatternConfig) (input : GetLayoutPatternInput),
       (getLayoutPatternSt st input).2 = st) ∧
    ((getLayoutPatternSt
        (getLayoutPatternSt patternsTable
          { pattern := "dashboard-grid", options := some { columns := some 4 } }).2
        { pattern := "dashboard-grid" }).1.toOption.map
          (fun o => o.structure_.columns) = some (some 3)) := by
  constructor
  · intro st input
    unfold getLayoutPatternSt
    cases h : st input.pattern <;> simp
  · rfl
